import Mathlib

/-!
# Verification of the okex-api-v5 client library

A shallow embedding of the parts of the `client` package (api.py,
query_params.py, ws.py, api_models.py) that the checked claims are about,
followed by one theorem per claim.

Python strings are modelled as Lean `String`s, byte strings as `List Nat`
with every element below 256, Python `float` values as rationals (every
numeric literal the claims touch is a dyadic rational, where binary floating
point arithmetic is exact), and raised exceptions as `Except` errors.
Impure inputs (the wall clock read by `get_timestamp`, the socket handed
back by `connect`, the frame returned by `recv`) are threaded as explicit
arguments, and socket effects are recorded in an explicit event trace.
-/

namespace Okex

/-! ## Byte-level primitives: ASCII, SHA-256, HMAC, Base64

`get_signature` calls into the `hmac`, `hashlib` and `base64` standard
library modules; these are embedded here as executable functions on byte
lists (FIPS 180-4 SHA-256, RFC 2104 HMAC, RFC 4648 Base64). -/

/-- `str.encode("ascii")` succeeds exactly when every character is below 128. -/
def isAscii (s : String) : Bool :=
  s.data.all (fun c => c.toNat < 128)

/-- The code points of a string; equals its ASCII bytes when `isAscii` holds. -/
def strBytes (s : String) : List Nat :=
  s.data.map Char.toNat

/-- `bytes(s, "ascii")`: `none` models the `UnicodeEncodeError` raised on
non-ASCII input. -/
def asciiEncode (s : String) : Option (List Nat) :=
  if isAscii s then some (strBytes s) else none

/-- `str.upper()` on ASCII text: uppercase each character. -/
def pyUpper (s : String) : String :=
  ⟨s.data.map Char.toUpper⟩

/-- Truncation to a 32-bit word. -/
def w32 (n : Nat) : Nat := n % 2 ^ 32

/-- 32-bit modular addition. -/
def add32 (a b : Nat) : Nat := (a + b) % 2 ^ 32

/-- Bitwise complement on 32-bit words. -/
def not32 (a : Nat) : Nat := Nat.xor a (2 ^ 32 - 1)

/-- Right rotation of a 32-bit word by `n` places. -/
def rotr32 (n a : Nat) : Nat := w32 (a / 2 ^ n + a % 2 ^ n * 2 ^ (32 - n))

/-- Logical right shift. -/
def shr32 (n a : Nat) : Nat := a / 2 ^ n

/-- SHA-256 `Ch(x,y,z)`. -/
def sha256Ch (x y z : Nat) : Nat := Nat.xor (Nat.land x y) (Nat.land (not32 x) z)

/-- SHA-256 `Maj(x,y,z)`. -/
def sha256Maj (x y z : Nat) : Nat :=
  Nat.xor (Nat.land x y) (Nat.xor (Nat.land x z) (Nat.land y z))

/-- SHA-256 `Σ₀`. -/
def bigSigma0 (x : Nat) : Nat := Nat.xor (rotr32 2 x) (Nat.xor (rotr32 13 x) (rotr32 22 x))

/-- SHA-256 `Σ₁`. -/
def bigSigma1 (x : Nat) : Nat := Nat.xor (rotr32 6 x) (Nat.xor (rotr32 11 x) (rotr32 25 x))

/-- SHA-256 `σ₀`. -/
def smallSigma0 (x : Nat) : Nat := Nat.xor (rotr32 7 x) (Nat.xor (rotr32 18 x) (shr32 3 x))

/-- SHA-256 `σ₁`. -/
def smallSigma1 (x : Nat) : Nat := Nat.xor (rotr32 17 x) (Nat.xor (rotr32 19 x) (shr32 10 x))

/-- The 64 SHA-256 round constants (FIPS 180-4, in decimal). -/
def sha256K : List Nat :=
  [1116352408, 1899447441, 3049323471, 3921009573, 961987163,
   1508970993, 2453635748, 2870763221, 3624381080, 310598401,
   607225278, 1426881987, 1925078388, 2162078206, 2614888103,
   3248222580, 3835390401, 4022224774, 264347078, 604807628,
   770255983, 1249150122, 1555081692, 1996064986, 2554220882,
   2821834349, 2952996808, 3210313671, 3336571891, 3584528711,
   113926993, 338241895, 666307205, 773529912, 1294757372,
   1396182291, 1695183700, 1986661051, 2177026350, 2456956037,
   2730485921, 2820302411, 3259730800, 3345764771, 3516065817,
   3600352804, 4094571909, 275423344, 430227734, 506948616,
   659060556, 883997877, 958139571, 1322822218, 1537002063,
   1747873779, 1955562222, 2024104815, 2227730452, 2361852424,
   2428436474, 2756734187, 3204031479, 3329325298]

/-- The SHA-256 initial hash value (in decimal). -/
def sha256InitH : List Nat :=
  [1779033703, 3144134277, 1013904242, 2773480762,
   1359893119, 2600822924, 528734635, 1541459225]

/-- Big-endian packing of bytes into 32-bit words. -/
def bytesToWords : List Nat → List Nat
  | b0 :: b1 :: b2 :: b3 :: rest =>
      (((b0 * 256 + b1) * 256 + b2) * 256 + b3) :: bytesToWords rest
  | _ => []

/-- Big-endian unpacking of 32-bit words into bytes. -/
def wordsToBytes (ws : List Nat) : List Nat :=
  ws.flatMap (fun w => [w / 2 ^ 24 % 256, w / 2 ^ 16 % 256, w / 2 ^ 8 % 256, w % 256])

/-- One extension step of the SHA-256 message schedule: append
`σ₁(w[i-2]) + w[i-7] + σ₀(w[i-15]) + w[i-16]` to the current schedule. -/
def scheduleStep (ws : List Nat) : List Nat :=
  let n := ws.length
  ws ++ [add32 (add32 (smallSigma1 (ws.getD (n - 2) 0)) (ws.getD (n - 7) 0))
               (add32 (smallSigma0 (ws.getD (n - 15) 0)) (ws.getD (n - 16) 0))]

/-- The full 64-word message schedule of one 64-byte block. -/
def sha256Schedule (block : List Nat) : List Nat :=
  (List.range 48).foldl (fun ws _ => scheduleStep ws) (bytesToWords block)

/-- One round of the SHA-256 compression function on the working variables
`[a,b,c,d,e,f,g,h]`. -/
def sha256Round (w : List Nat) (st : List Nat) (i : Nat) : List Nat :=
  match st with
  | [a, b, c, d, e, f, g, h] =>
    let t1 := add32 h (add32 (bigSigma1 e)
      (add32 (sha256Ch e f g) (add32 (sha256K.getD i 0) (w.getD i 0))))
    let t2 := add32 (bigSigma0 a) (sha256Maj a b c)
    [add32 t1 t2, a, b, c, add32 d t1, e, f, g]
  | other => other

/-- SHA-256 compression of one 64-byte block into the running hash. -/
def sha256Compress (h : List Nat) (block : List Nat) : List Nat :=
  let w := sha256Schedule block
  let final := (List.range 64).foldl (sha256Round w) h
  List.zipWith add32 h final

/-- Split a byte list into 64-byte blocks. -/
def chunks64 : List Nat → List (List Nat)
  | [] => []
  | a :: rest => ((a :: rest).take 64) :: chunks64 (rest.drop 63)
termination_by l => l.length
decreasing_by simp [List.length_drop]; omega

/-- The SHA-256 padding of a message of `len` bytes: a `0x80` byte, zeros up
to 56 mod 64, then the bit length as an 8-byte big-endian integer. -/
def sha256Padding (len : Nat) : List Nat :=
  0x80 :: List.replicate ((120 - (len + 1) % 64) % 64) 0
    ++ (List.range 8).map (fun i => 8 * len / 2 ^ (8 * (7 - i)) % 256)

/-- SHA-256 of a byte list (the 32-byte digest). -/
def sha256 (msg : List Nat) : List Nat :=
  let padded := msg ++ sha256Padding msg.length
  wordsToBytes ((chunks64 padded).foldl sha256Compress sha256InitH)

/-- RFC 2104 HMAC-SHA256 with a 64-byte block size. -/
def hmacSha256 (key msg : List Nat) : List Nat :=
  let k0 := if key.length > 64 then sha256 key else key
  let k := k0 ++ List.replicate (64 - k0.length) 0
  let ipad := k.map (fun b => Nat.xor b 0x36)
  let opad := k.map (fun b => Nat.xor b 0x5c)
  sha256 (opad ++ sha256 (ipad ++ msg))

/-- The standard Base64 alphabet. -/
def base64Alphabet : List Char :=
  "ABCDEFGHIJKLMNOPQRSTUVWXYZabcdefghijklmnopqrstuvwxyz0123456789+/".data

/-- The Base64 digit for a 6-bit group. -/
def b64c (n : Nat) : Char := base64Alphabet.getD n 'A'

/-- RFC 4648 Base64 encoding with `=` padding (`base64.b64encode`). -/
def base64Encode : List Nat → String
  | [] => ""
  | [a] => String.mk [b64c (a / 4), b64c (a % 4 * 16), '=', '=']
  | [a, b] => String.mk [b64c (a / 4), b64c (a % 4 * 16 + b / 16), b64c (b % 16 * 4), '=']
  | a :: b :: c :: rest =>
      String.mk [b64c (a / 4), b64c (a % 4 * 16 + b / 16),
                 b64c (b % 16 * 4 + c / 64), b64c (c % 64)]
        ++ base64Encode rest

/-! ## api.py: the REST client `OkexApi`

`get_timestamp` reads the wall clock, so the timestamp is threaded into
`get_headers` as an explicit argument; everything else in the header and
signature computation is pure. -/

/-- The state of an `OkexApi` instance after `__init__` succeeded.
`secretkey` stays optional (only a warning is logged when absent). -/
structure OkexApi where
  api_key : String
  passphrase : String
  secretkey : Option String
  base_url : String
  protocol : String

/-- `OkexApi.__init__`: missing `api_key` or `passphrase` is a `ValueError`;
a missing secret key is merely logged. `self.protocol` is always `"https"`. -/
def OkexApi.init (api_key passphrase secretkey : Option String)
    (base_url : String) : Except String OkexApi :=
  match api_key with
  | Option.none => .error "OkexClient must have an api_key"
  | some k =>
    match passphrase with
    | Option.none => .error "OkexClient must have a passphrase"
    | some p => .ok ⟨k, p, secretkey, base_url, "https"⟩

/-- `OkexApi.compile_url`. -/
def OkexApi.compile_url (c : OkexApi) (request_path : String) : String :=
  c.protocol ++ "://" ++ c.base_url ++ request_path

/-- The loop body of `OkexApi.compile_query_string`: Python's
`for i, (k, v) in enumerate(query_params.items())` accumulating
`f"{'&' if i > 0 else ''}{k}={v}"`. Dict items iterate in insertion
order, so the dict is passed as the ordered list of its pairs. -/
def compileQueryStringAux (i : Nat) (acc : String) :
    List (String × String) → String
  | [] => acc
  | (k, v) :: rest =>
      compileQueryStringAux (i + 1)
        (acc ++ (if i > 0 then "&" else "") ++ k ++ "=" ++ v) rest

/-- `OkexApi.compile_query_string`, starting from the literal `"?"`. -/
def OkexApi.compile_query_string (query_params : List (String × String)) : String :=
  compileQueryStringAux 0 "?" query_params

/-- `OkexApi.get_signature`: HMAC-SHA256 of
`time_stamp + method.upper() + request_path + body` keyed by the secret,
Base64-encoded. `none` models the `UnicodeEncodeError` that
`bytes(_, "ascii")` raises on non-ASCII input. -/
def OkexApi.get_signature (secretkey time_stamp method request_path body : String) :
    Option String :=
  let prehash := time_stamp ++ pyUpper method ++ request_path ++ body
  match asciiEncode secretkey, asciiEncode prehash with
  | some keyBytes, some msgBytes => some (base64Encode (hmacSha256 keyBytes msgBytes))
  | _, _ => Option.none

/-- `OkexApi.get_headers` with the current timestamp passed explicitly:
an empty header dict when no secret key is configured, otherwise the four
auth headers in the order they are written in the source. -/
def OkexApi.get_headers (c : OkexApi) (time_stamp method request_path body : String) :
    Option (List (String × String)) :=
  match c.secretkey with
  | Option.none => some []
  | some sk =>
    match OkexApi.get_signature sk time_stamp method request_path body with
    | some signature =>
        some [("OK-ACCESS-KEY", c.api_key),
              ("OK-ACCESS-SIGN", signature),
              ("OK-ACCESS-TIMESTAMP", time_stamp),
              ("OK-ACCESS-PASSPHRASE", c.passphrase)]
    | Option.none => Option.none

/-- The outbound request observable by the HTTP library: final URL and
headers. `make_request` appends the compiled query string to the path
before both signing and URL construction. -/
structure HttpRequest where
  url : String
  headers : List (String × String)

/-- `OkexApi.make_request` up to the network call, with the body already
serialized (`json.dumps(params, separators=(",", ":"))` or `""`) and the
timestamp explicit. -/
def OkexApi.make_request (c : OkexApi) (time_stamp method request_path : String)
    (query_params : Option (List (String × String))) (body : String) :
    Option HttpRequest :=
  let path := match query_params with
    | some qp => if qp ≠ [] then request_path ++ OkexApi.compile_query_string qp
                 else request_path
    | Option.none => request_path
  match OkexApi.get_headers c time_stamp method path body with
  | some headers => some { url := c.compile_url path, headers := headers }
  | Option.none => Option.none

/-! Specification-side description of the query string used by claim C8:
the encoded pairs in insertion order, joined with a single `&` strictly
between consecutive pairs, after a leading `?`. -/

/-- A single `k=v` fragment. -/
def encodePair (kv : String × String) : String := kv.1 ++ "=" ++ kv.2

/-- Join fragments with `&` strictly between consecutive entries. -/
def ampJoin : List String → String
  | [] => ""
  | [s] => s
  | s :: rest => s ++ "&" ++ ampJoin rest

/-- Fragments each preceded by `&`: what the loop produces for `i > 0`. -/
def ampTail : List (String × String) → String
  | [] => ""
  | kv :: rest => "&" ++ encodePair kv ++ ampTail rest

/-! ## ws.py: the WebSocket client `OkexWebsocketsApi`

The transport is impure, so the socket handed back by `connect`, the
handshake frame returned by `recv`, and each streamed frame are explicit
arguments, and the calls `subscribe` makes into the transport are recorded
in an event trace: an empty trace means no connection was ever attempted. -/

/-- Parsed JSON values (`json.loads` output). -/
inductive Json where
  | null
  | bool (b : Bool)
  | num (q : ℚ)
  | str (s : String)
  | arr (xs : List Json)
  | obj (fields : List (String × Json))

/-- Dictionary lookup `frame[key]` on a parsed JSON object; `none` models
the `KeyError` on a missing key (and on indexing a non-object). -/
def jsonGet (j : Json) (key : String) : Option Json :=
  match j with
  | .obj fields => fields.lookup key
  | _ => Option.none

/-- Python `j == "s"` for a decoded JSON value: string equality, `False`
for any non-string value. -/
def jsonIsStr (j : Json) (s : String) : Bool :=
  match j with
  | .str t => t = s
  | _ => false

/-- `str(j)` as interpolated into the subscribe error f-string; only the
string case is exercised by the claims. -/
def jsonPyStr : Json → String
  | .null => "None"
  | .bool b => if b then "True" else "False"
  | .num q => if q.den = 1 then toString q.num else toString q
  | .str s => s
  | .arr _ => "[...]"
  | .obj _ => "\x7b...\x7d"

/-- Exceptions raised by the WebSocket client. -/
inductive WsErr where
  | valueError (msg : String)
  | runtimeError (msg : String)
  | keyError (msg : String)
  | indexError (msg : String)
deriving DecidableEq

/-- `PUBLIC_CHANNELS` (a Python set; membership only). -/
def PUBLIC_CHANNELS : List String :=
  ["books", "candle1D", "estimated-price", "funding-rate", "index-candle30m",
   "index-tickers", "instruments", "mark-price", "mark-price-candle1D",
   "open-interest", "opt-summary", "price-limit", "status", "tickers", "trades"]

/-- `PRIVATE_CHANNELS`. -/
def PRIVATE_CHANNELS : List String :=
  ["account", "balance_and_position", "orders", "orders-algo", "positions"]

/-- The state of an `OkexWebsocketsApi` instance; `self.protocol` is `"wss"`. -/
structure OkexWsApi where
  api_key : String
  passphrase : String
  secretkey : Option String
  base_url : String
  protocol : String

/-- `OkexWebsocketsApi.get_channel_visibility`: the fixed membership table,
`ValueError` outside both sets. -/
def OkexWsApi.get_channel_visibility (channel : String) : Except WsErr String :=
  if channel ∈ PUBLIC_CHANNELS then .ok "public"
  else if channel ∈ PRIVATE_CHANNELS then .ok "private"
  else .error (.valueError ("Value " ++ channel ++ " is not a valid channel"))

/-- Transport calls made by `subscribe`, in order. -/
inductive WsEvent where
  | connected (uri : String)
  | sent (frame : Json)
  | received

/-- The value `subscribe` returns on success. -/
structure SocketContext where
  socket : Nat
  channel : String

/-- The subscribe request frame
`{"op": "subscribe", "args": [{"channel": channel, **kwargs}]}`. -/
def subscribeRequest (channel : String) (kwargs : List (String × Json)) : Json :=
  .obj [("op", .str "subscribe"),
        ("args", .arr [.obj (("channel", .str channel) :: kwargs)])]

/-- `OkexWebsocketsApi.subscribe`, with the socket returned by `connect`
and the handshake frame returned by `recv` as explicit inputs. The first
component is the trace of transport calls; `get_channel_visibility` runs
before `connect`, so an invalid channel leaves the trace empty. An
`"error"` event raises `RuntimeError` with the server message interpolated;
a `"subscribe"` event is acknowledged; any other event falls through both
branches and the socket context is returned as on acknowledgement. -/
def OkexWsApi.subscribe (c : OkexWsApi) (channel : String)
    (kwargs : List (String × Json)) (sock : Nat) (response : Json) :
    List WsEvent × Except WsErr SocketContext :=
  let request := subscribeRequest channel kwargs
  match OkexWsApi.get_channel_visibility channel with
  | .error e => ([], .error e)
  | .ok visibility =>
    let uri := c.protocol ++ "://" ++ c.base_url ++ "/v5/" ++ visibility
    let events := [WsEvent.connected uri, WsEvent.sent request, WsEvent.received]
    match jsonGet response "event" with
    | Option.none => (events, .error (.keyError "event"))
    | some ev =>
      if jsonIsStr ev "subscribe" then
        (events, .ok ⟨sock, channel⟩)
      else if jsonIsStr ev "error" then
        match jsonGet response "msg" with
        | Option.none => (events, .error (.keyError "msg"))
        | some m =>
          (events, .error (.runtimeError
            ("Subscription to channel " ++ channel ++ " failed with error \x22"
              ++ jsonPyStr m ++ "\x22")))
      else
        (events, .ok ⟨sock, channel⟩)

/-- The per-frame step of the `trades` stream on the frame's already
extracted `data` list: the explicit cardinality check
`if len(data) > 1: raise ValueError(...)` runs first, then `data[0]`
(whose failure on an empty list is an `IndexError`). -/
def tradesProcessFrame (data : List Json) : Except WsErr Json :=
  if data.length > 1 then
    .error (.valueError "More data in websocket message than expected")
  else
    match data with
    | [] => .error (.indexError "list index out of range")
    | d :: _ => .ok d

/-- The full per-frame step: `json.loads(msg)["data"]` then the
cardinality check and `data[0]`. -/
def tradesStep (frame : Json) : Except WsErr Json :=
  match jsonGet frame "data" with
  | Option.none => .error (.keyError "data")
  | some (.arr data) => tradesProcessFrame data
  | some _ => .error (.keyError "data is not an array")

/-- Does a stream-step result carry the deliberate protocol-violation
error (`ValueError`)? -/
def raisesProtocolViolation (r : Except WsErr Json) : Bool :=
  match r with
  | .error (.valueError _) => true
  | _ => false

/-- The error carried by a result, if any. -/
def errOf (r : Except WsErr Json) : Option WsErr :=
  match r with
  | .error e => some e
  | .ok _ => Option.none

/-- The observable state of the underlying transport socket: how often
`socket.close()` has been awaited. -/
structure SocketState where
  closeCount : Nat

/-- `socket.close()`. -/
def socketClose (s : SocketState) : SocketState :=
  { s with closeCount := s.closeCount + 1 }

/-- `SocketContext.__aexit__(exc_type, exc, tb)`: awaits `socket.close()`
and falls off the end, i.e. returns `None` — a falsy value, so the
exception (when present) is never suppressed. The `Bool` is the suppress
flag the `async with` protocol reads. -/
def SocketContext.aexit (st : SocketState) (_exc : Option WsErr) :
    SocketState × Bool :=
  (socketClose st, false)

/-- The `async with` protocol around a subscription scope body that either
completed with a value or raised: `__aexit__` always runs; a truthy return
would swallow the exception (yielding no value), a falsy one re-raises it. -/
def withSubscriptionScope {α : Type} (st : SocketState) (body : Except WsErr α) :
    SocketState × Except WsErr (Option α) :=
  match body with
  | .ok a =>
    let (st2, _) := SocketContext.aexit st Option.none
    (st2, .ok (some a))
  | .error e =>
    let (st2, suppress) := SocketContext.aexit st (some e)
    (st2, if suppress then .ok Option.none else .error e)

/-! ## api_models.py: `CandleStick` and the timestamp mixin

Every float literal in the checked claim is a dyadic rational
(1, 2, 0.5, 1.5, 10, 15), on which binary floating point parsing and
arithmetic are exact, so Python floats are modelled as rationals. -/

/-- The digits of a numeral, most significant first. -/
def digitsVal : List Char → Option Nat
  | [] => Option.none
  | cs => cs.foldl (fun acc c => do
      let n ← acc
      if c.isDigit then some (n * 10 + (c.toNat - 48)) else Option.none)
      (some 0)

/-- Split a character list at every `'.'`. -/
def splitDots : List Char → List (List Char)
  | [] => [[]]
  | c :: cs =>
    let r := splitDots cs
    if c = '.' then [] :: r
    else
      match r with
      | p :: ps => (c :: p) :: ps
      | [] => [[c]]

/-- `float(s)` on plain decimal literals: optional sign, integer digits,
optional fraction digits (at least one digit overall); `none` models the
`ValueError` on anything else. Exponent forms never occur in the data the
claims quantify over. -/
def pyFloat (s : String) : Option ℚ :=
  let (sign, rest) :=
    match s.data with
    | '-' :: cs => ((-1 : ℚ), cs)
    | '+' :: cs => ((1 : ℚ), cs)
    | cs => ((1 : ℚ), cs)
  match splitDots rest with
  | [intPart] => (digitsVal intPart).map (fun n => sign * n)
  | [intPart, fracPart] =>
    if intPart = [] ∧ fracPart = [] then Option.none
    else
      let ip := if intPart = [] then some 0 else digitsVal intPart
      let fp := if fracPart = [] then some 0 else digitsVal fracPart
      match ip, fp with
      | some i, some f =>
          some (sign * ((i : ℚ) + (f : ℚ) / (10 : ℚ) ^ fracPart.length))
      | _, _ => Option.none
  | _ => Option.none

/-- `int(s)`: optional sign and decimal digits. -/
def pyParseInt (s : String) : Option Int :=
  match s.data with
  | '-' :: cs => (digitsVal cs).map (fun n => -(n : Int))
  | '+' :: cs => (digitsVal cs).map (fun n => (n : Int))
  | cs => (digitsVal cs).map (fun n => (n : Int))

/-- Round half to even at integer precision, as Python's `round` does. -/
def roundHalfEven (q : ℚ) : ℤ :=
  let f := Int.floor q
  let frac := q - f
  if frac < 1 / 2 then f
  else if 1 / 2 < frac then f + 1
  else if f % 2 = 0 then f else f + 1

/-- `round(q, 2)`. -/
def round2 (q : ℚ) : ℚ := (roundHalfEven (q * 100) : ℚ) / 100

/-- The `CandleStick` dataclass. The `open` field is called `open_` because
`open` is a Lean keyword. -/
structure CandleStick where
  _timestamp : String
  open_ : ℚ
  high : ℚ
  low : ℚ
  close : ℚ
  volume : ℚ
  volume_in_currency : ℚ
deriving DecidableEq

/-- `CandleStick.from_api_data`: destructure the fixed 7-element array and
parse each price field with `float`; `none` models the `ValueError` on a
wrong arity or a non-numeric field. -/
def CandleStick.from_api_data (api_data : List String) : Option CandleStick :=
  match api_data with
  | [ts, o, h, l, c, vol, vol_currency] => do
    let o ← pyFloat o
    let h ← pyFloat h
    let l ← pyFloat l
    let c ← pyFloat c
    let vol ← pyFloat vol
    let vol_currency ← pyFloat vol_currency
    some ⟨ts, o, h, l, c, vol, vol_currency⟩
  | _ => Option.none

/-- The cached property `CandleStick.change = round(close - open, 2)`. -/
def CandleStick.change (cs : CandleStick) : ℚ := round2 (cs.close - cs.open_)

/-- The cached property `CandleStick.spread = round(high - low, 2)`. -/
def CandleStick.spread (cs : CandleStick) : ℚ := round2 (cs.high - cs.low)

/-- `ModelTimestampMixin.timestamp` reduced to its numeric content: the
constructed `datetime` represents the instant
`float(self._timestamp) / 1000` seconds after the epoch. -/
def timestampSeconds (raw : String) : Option ℚ :=
  (pyFloat raw).map (fun q => q / 1000)

/-! ## query_params.py: `QueryParams`

`QueryParams` subclasses `dict` and dispatches `add_param` through
`hasattr(self, key)` / `getattr(self, key)(value)`. That reflection is
modelled explicitly: `qpAttrNames` lists every attribute name visible on an
instance (the eight validator methods, the class helpers, and the built-in
`dict`/`object` attributes of CPython 3.8–3.11), and `qpCallAttr` gives the
result of calling the attribute with one argument. Values are modelled by
`PyVal`; the dict contents by an insertion-ordered association list. -/

/-- Python values that can reach `QueryParams`. `other` stands for objects
whose only relevant property is being some non-`None` object (bound
methods, `NotImplemented`, generic aliases). -/
inductive PyVal where
  | none
  | bool (b : Bool)
  | int (n : Int)
  | float (q : ℚ)
  | str (s : String)
  | list (xs : List PyVal)
  | dict (entries : List (PyVal × PyVal))
  | other (descr : String)

/-- The numeric value of a `bool`/`int`/`float` (Python's numeric tower,
where `True == 1 == 1.0`). -/
def pyNum : PyVal → Option ℚ
  | .bool b => some (if b then 1 else 0)
  | .int n => some (n : ℚ)
  | .float q => some q
  | _ => Option.none

mutual

/-- Python `==` on the modelled values: the numeric tower compares by
value, lists elementwise, dicts by unordered key lookup. -/
def pyEq : PyVal → PyVal → Bool
  | .none, .none => true
  | .bool a, .bool b => a == b
  | .bool a, .int n => (if a then (1 : Int) else 0) == n
  | .bool a, .float q => (if a then (1 : ℚ) else 0) == q
  | .int n, .bool b => n == (if b then (1 : Int) else 0)
  | .int n, .int m => n == m
  | .int n, .float q => (n : ℚ) == q
  | .float q, .bool b => q == (if b then (1 : ℚ) else 0)
  | .float q, .int n => q == (n : ℚ)
  | .float q, .float p => q == p
  | .str a, .str b => a == b
  | .list a, .list b => pyEqList a b
  | .dict a, .dict b => a.length == b.length && pyDictLe a b
  | .other a, .other b => a == b
  | _, _ => false

/-- Elementwise list equality. -/
def pyEqList : List PyVal → List PyVal → Bool
  | [], [] => true
  | x :: xs, y :: ys => pyEq x y && pyEqList xs ys
  | _, _ => false

/-- Every pair of the first dict is present (by key equality) in the second. -/
def pyDictLe : List (PyVal × PyVal) → List (PyVal × PyVal) → Bool
  | [], _ => true
  | (k, v) :: rest, d => pyLookupEq d k v && pyDictLe rest d

/-- The dict maps a key equal to `k` to a value equal to `v`. -/
def pyLookupEq : List (PyVal × PyVal) → PyVal → PyVal → Bool
  | [], _, _ => false
  | (k2, v2) :: rest, k, v => if pyEq k k2 then pyEq v v2 else pyLookupEq rest k v

end

/-- Hashable values (usable as dict keys); lists and dicts are not. -/
def pyHashable : PyVal → Bool
  | .list _ => false
  | .dict _ => false
  | _ => true

/-- The insertion-ordered contents of a `QueryParams` dict. -/
abbrev QPDict := List (PyVal × PyVal)

/-- `d[k]` lookup by Python equality. -/
def dictGet : QPDict → PyVal → Option PyVal
  | [], _ => Option.none
  | (k2, v) :: rest, k => if pyEq k k2 then some v else dictGet rest k

/-- `d[k] = v`: update in place, preserving the position (and original key
object) of an existing key, appending a new one. -/
def dictSet : QPDict → PyVal → PyVal → QPDict
  | [], k, v => [(k, v)]
  | (k2, v2) :: rest, k, v =>
      if pyEq k k2 then (k2, v) :: rest else (k2, v2) :: dictSet rest k v

/-- `del d[k]`. -/
def dictRemove : QPDict → PyVal → QPDict
  | [], _ => []
  | (k2, v2) :: rest, k =>
      if pyEq k k2 then rest else (k2, v2) :: dictRemove rest k

/-- Exceptions raised during `QueryParams` construction. -/
inductive PyErr where
  | keyError (msg : String)
  | typeError (msg : String)
  | valueError (msg : String)
  | assertionError (msg : String)
  | attributeError (msg : String)
  | overflowError (msg : String)
deriving DecidableEq

/-- `str(v)` for the values interpolated into validator messages. -/
def pyValStr : PyVal → String
  | .none => "None"
  | .bool b => if b then "True" else "False"
  | .int n => toString n
  | .float q => toString q
  | .str s => s
  | .list _ => "[...]"
  | .dict _ => "\x7b...\x7d"
  | .other d => d

/-- `CANDLE_SIZES`. -/
def CANDLE_SIZES : List String :=
  ["1m", "3m", "5m", "15m", "30m", "1H", "2H", "4H", "6H", "12H",
   "1D", "1W", "1M", "3M", "6M", "1Y"]

/-- `QueryParams.assert_timestamp`: a string is converted with `int()`,
the value is divided by 1000 and fed to `datetime.utcfromtimestamp`
(which only accepts instants within years 1–9999), and the result must not
precede `datetime(1970, 1, 1)` — i.e. the seconds must be non-negative. -/
def QueryParams.assert_timestamp (ts : PyVal) : Except PyErr PyVal := do
  let ts2 ← match ts with
    | .str s =>
      match pyParseInt s with
      | some n => Except.ok (PyVal.int n)
      | Option.none =>
          Except.error (PyErr.valueError
            ("invalid literal for int() with base 10: " ++ s))
    | v => Except.ok v
  match pyNum ts2 with
  | Option.none =>
      .error (.typeError "unsupported operand type(s) for /: ")
  | some q =>
    let secs := q / 1000
    if secs < -62135596800 then
      .error (.valueError "year 0 is out of range")
    else if (253402300800 : ℚ) ≤ secs then
      .error (.overflowError "timestamp out of range")
    else if 0 ≤ secs then .ok ts2
    else
      .error (.valueError
        (pyValStr ts2 ++ " is not a valid timestamp (should be UNIX milliseconds"))

/-- `QueryParams.after`. -/
def QueryParams.after (v : PyVal) : Except PyErr PyVal :=
  QueryParams.assert_timestamp v

/-- `QueryParams.before`. -/
def QueryParams.before (v : PyVal) : Except PyErr PyVal :=
  QueryParams.assert_timestamp v

/-- `QueryParams.bar`: `assert candle_size in CANDLE_SIZES` (membership in
a list of strings is `False` for any non-string). -/
def QueryParams.bar (v : PyVal) : Except PyErr PyVal :=
  match v with
  | .str s => if s ∈ CANDLE_SIZES then .ok v else .error (.assertionError "")
  | _ => .error (.assertionError "")

/-- `QueryParams.ccy`: `",".join(currencies)` — joining a string joins its
characters; a list must contain only strings. -/
def QueryParams.ccy (v : PyVal) : Except PyErr PyVal :=
  match v with
  | .str s =>
      .ok (.str (String.intercalate "," (s.data.map (fun c => String.mk [c]))))
  | .list xs =>
    match xs.mapM (fun x => match x with | .str s => some s | _ => Option.none) with
    | some parts => .ok (.str (String.intercalate "," parts))
    | Option.none => .error (.typeError "sequence item: expected str instance")
  | _ => .error (.typeError "can only join an iterable")

/-- `QueryParams.instType`: returned unchanged. -/
def QueryParams.instType (v : PyVal) : Except PyErr PyVal := .ok v

/-- `QueryParams.instId`: explicit `None` check (unreachable through
`add_param`, which already skipped `None`). -/
def QueryParams.instId (v : PyVal) : Except PyErr PyVal :=
  match v with
  | .none => .error (.typeError "You must provide an instrument_id")
  | _ => .ok v

/-- `QueryParams.limit`: asserts an integer (`bool` is a subclass of `int`)
strictly greater than 0 and serializes it with `str`. -/
def QueryParams.limit (v : PyVal) : Except PyErr PyVal :=
  match v with
  | .int n =>
      if 0 < n then .ok (.str (toString n))
      else .error (.assertionError "limit must be greater than 0")
  | .bool b =>
      if b then .ok (.str "True")
      else .error (.assertionError "limit must be greater than 0")
  | _ => .error (.assertionError "limit must be an integer")

/-- `QueryParams.sz`: same assertions as `limit` but the integer is
returned unconverted. -/
def QueryParams.sz (v : PyVal) : Except PyErr PyVal :=
  match v with
  | .int n =>
      if 0 < n then .ok v
      else .error (.assertionError "size must be greater than 0")
  | .bool b =>
      if b then .ok v
      else .error (.assertionError "size must be greater than 0")
  | _ => .error (.assertionError "size must be an integer")

/-- The eight recognized query-parameter names: exactly the validator
methods the class defines, i.e. the closed parameter table of the spec. -/
def recognizedParamNames : List String :=
  ["after", "bar", "before", "ccy", "instType", "instId", "limit", "sz"]

/-- Every attribute name visible on a `QueryParams` instance, i.e. the
names for which `hasattr(self, key)` is `True`: the validator methods, the
class helpers and class-namespace entries, the `dict` methods, and the
`dict`/`object` special attributes of CPython 3.8–3.11. (`__qualname__` is
absent: `type.__new__` removes it from the class dict, so instances do not
see it and the real `add_param` raises the unknown-key `KeyError` for it.) -/
def qpAttrNames : List String :=
  recognizedParamNames ++
  ["add_param", "assert_timestamp",
   "__module__", "__doc__", "__dict__", "__weakref__",
   "clear", "copy", "fromkeys", "get", "items", "keys", "pop", "popitem",
   "setdefault", "update", "values",
   "__class__", "__class_getitem__", "__contains__", "__delattr__",
   "__delitem__", "__dir__", "__eq__", "__format__", "__ge__",
   "__getattribute__", "__getitem__", "__gt__", "__hash__", "__init__",
   "__init_subclass__", "__iter__", "__le__", "__len__", "__lt__",
   "__ne__", "__new__", "__or__", "__reduce__", "__reduce_ex__",
   "__repr__", "__reversed__", "__ror__", "__ior__", "__setattr__",
   "__setitem__", "__sizeof__", "__str__", "__subclasshook__",
   "__getstate__"]

/-- `dict.fromkeys(value)` and `self.update(value)` share the iteration
over `value`: the keys a string or list yields, `none` when the value is
not iterable or a key is unhashable. -/
def iterKeys : PyVal → Option (List PyVal)
  | .str s => some (s.data.map (fun c => PyVal.str (String.mk [c])))
  | .list xs => if xs.all pyHashable then some xs else Option.none
  | .dict d => some (d.map Prod.fst)
  | _ => Option.none

/-- `getattr(self, key)(value)` for an attribute name in `qpAttrNames`:
the validator methods dispatch to their definitions above; the built-in
`dict` attributes behave as in CPython (a method of other arity raises
`TypeError`, a non-callable attribute raises `TypeError`, comparison
slots return `NotImplemented`, `get`/`setdefault`/`pop`/`fromkeys`/
`update` act on the dict). Returns the call's value and the possibly
mutated dict. -/
def qpCallAttr (self : QPDict) (key : String) (value : PyVal) :
    Except PyErr (PyVal × QPDict) :=
  match key with
  | "after" => (QueryParams.after value).map (fun v => (v, self))
  | "before" => (QueryParams.before value).map (fun v => (v, self))
  | "bar" => (QueryParams.bar value).map (fun v => (v, self))
  | "ccy" => (QueryParams.ccy value).map (fun v => (v, self))
  | "instType" => (QueryParams.instType value).map (fun v => (v, self))
  | "instId" => (QueryParams.instId value).map (fun v => (v, self))
  | "limit" => (QueryParams.limit value).map (fun v => (v, self))
  | "sz" => (QueryParams.sz value).map (fun v => (v, self))
  | "assert_timestamp" => (QueryParams.assert_timestamp value).map (fun v => (v, self))
  | "add_param" =>
      .error (.typeError "add_param() missing 1 required positional argument: value")
  | "get" =>
    if pyHashable value then .ok ((dictGet self value).getD .none, self)
    else .error (.typeError "unhashable type")
  | "setdefault" =>
    if pyHashable value then
      match dictGet self value with
      | some v => .ok (v, self)
      | Option.none => .ok (.none, dictSet self value .none)
    else .error (.typeError "unhashable type")
  | "pop" =>
    if pyHashable value then
      match dictGet self value with
      | some v => .ok (v, dictRemove self value)
      | Option.none => .error (.keyError (pyValStr value))
    else .error (.typeError "unhashable type")
  | "fromkeys" =>
    match iterKeys value with
    | some ks => .ok (.dict (ks.foldl (fun d k => dictSet d k .none) []), self)
    | Option.none => .error (.typeError "object is not iterable")
  | "update" =>
    match value with
    | .dict d => .ok (.none, d.foldl (fun s kv => dictSet s kv.1 kv.2) self)
    | .str s =>
      if s.data = [] then .ok (.none, self)
      else .error (.valueError "dictionary update sequence element #0 has length 1; 2 is required")
    | .list _ => .error (.valueError "dictionary update sequence element is not a pair")
    | _ => .error (.typeError "object is not iterable")
  | "__contains__" =>
    if pyHashable value then .ok (.bool (dictGet self value).isSome, self)
    else .error (.typeError "unhashable type")
  | "__getitem__" =>
    if pyHashable value then
      match dictGet self value with
      | some v => .ok (v, self)
      | Option.none => .error (.keyError (pyValStr value))
    else .error (.typeError "unhashable type")
  | "__delitem__" =>
    if pyHashable value then
      match dictGet self value with
      | some _ => .ok (.none, dictRemove self value)
      | Option.none => .error (.keyError (pyValStr value))
    else .error (.typeError "unhashable type")
  | "__eq__" =>
    match value with
    | .dict d => .ok (.bool (pyEq (.dict self) (.dict d)), self)
    | _ => .ok (.other "NotImplemented", self)
  | "__ne__" =>
    match value with
    | .dict d => .ok (.bool (! pyEq (.dict self) (.dict d)), self)
    | _ => .ok (.other "NotImplemented", self)
  | "__lt__" | "__le__" | "__gt__" | "__ge__" =>
      .ok (.other "NotImplemented", self)
  | "__or__" | "__ror__" =>
    match value with
    | .dict d => .ok (.dict (d.foldl (fun s kv => dictSet s kv.1 kv.2) self), self)
    | _ => .ok (.other "NotImplemented", self)
  | "__ior__" =>
    match value with
    | .dict d => .ok (.other "self", d.foldl (fun s kv => dictSet s kv.1 kv.2) self)
    | _ => .error (.typeError "right operand must be a mapping or iterable of pairs")
  | "__getattribute__" =>
    match value with
    | .str s =>
      if s ∈ qpAttrNames then .ok (.other ("attribute " ++ s), self)
      else .error (.attributeError s)
    | _ => .error (.typeError "attribute name must be string")
  | "__delattr__" =>
    match value with
    | .str s => .error (.attributeError s)
    | _ => .error (.typeError "attribute name must be string")
  | "__format__" =>
    match value with
    | .str s =>
      if s = "" then .ok (.other "str(self)", self)
      else .error (.typeError "unsupported format string passed to dict.__format__")
    | _ => .error (.typeError "__format__() argument must be str")
  | "__reduce_ex__" =>
    match pyNum value with
    | some q =>
      if value matches .float _ then .error (.typeError "integer argument expected")
      else if 0 ≤ q ∧ q ≤ 5 then .ok (.other "reduce tuple", self)
      else .error (.valueError "unsupported pickle protocol")
    | Option.none => .error (.typeError "integer argument expected")
  | "__class_getitem__" => .ok (.other "GenericAlias", self)
  | "__subclasshook__" => .ok (.other "NotImplemented", self)
  | "__module__" | "__doc__" | "__dict__" | "__weakref__"
  | "__hash__" =>
      .error (.typeError "object is not callable")
  | _ =>
      .error (.typeError (key ++ "() takes no arguments (1 given)"))

/-- `QueryParams.add_param`: skip `None` values; for other values,
`hasattr(self, key)` decides between `KeyError` and
`self[key] = getattr(self, key)(value)`. -/
def QueryParams.add_param (self : QPDict) (key : String) (value : PyVal) :
    Except PyErr QPDict :=
  match value with
  | .none => .ok self
  | _ =>
    if key ∈ qpAttrNames then
      match qpCallAttr self key value with
      | .ok (v, self2) => .ok (dictSet self2 (.str key) v)
      | .error e => .error e
    else
      .error (.keyError ("QueryParams does not support " ++ key))

/-- The `for k, v in kwargs.items(): self.add_param(k, v)` loop of
`QueryParams.__init__`: the first exception aborts the whole construction. -/
def QueryParams.initLoop (self : QPDict) :
    List (String × PyVal) → Except PyErr QPDict
  | [] => .ok self
  | (k, v) :: rest =>
    match QueryParams.add_param self k v with
    | .ok self2 => QueryParams.initLoop self2 rest
    | .error e => .error e

/-- `QueryParams.__init__(**kwargs)` from an empty dict; on an exception
the caller never obtains a dict. -/
def QueryParams.init (kwargs : List (String × PyVal)) : Except PyErr QPDict :=
  QueryParams.initLoop [] kwargs

/-! ## Theorems -/

/-- C5: on every exit of the subscription scope — the body completing
normally or raising — `socket.close()` runs exactly once (the close count
rises by one), and a raised exception is re-raised unchanged
(`__aexit__` returns a falsy value, so nothing is suppressed); an `ok`
body's value likewise passes through. -/
theorem subscription_scope_closes_once {α : Type} (st : SocketState)
    (body : Except WsErr α) :
    (withSubscriptionScope st body).1.closeCount = st.closeCount + 1 ∧
    (withSubscriptionScope st body).2 = body.map some ∧
    ∀ exc : Option WsErr,
      (SocketContext.aexit st exc).1.closeCount = st.closeCount + 1 := by
  refine ⟨?_, ?_, fun exc => rfl⟩ <;> cases body <;> rfl

/-- C7: `"trades"` classifies as public and `"orders"` as private, and for
a channel name outside both membership tables `subscribe` raises the
invalid-channel `ValueError` with an empty transport trace — no connection
is ever attempted. -/
theorem channel_visibility_classification (c : OkexWsApi) (channel : String)
    (kwargs : List (String × Json)) (sock : Nat) (response : Json)
    (h1 : channel ∉ PUBLIC_CHANNELS) (h2 : channel ∉ PRIVATE_CHANNELS) :
    OkexWsApi.get_channel_visibility "trades" = .ok "public" ∧
    OkexWsApi.get_channel_visibility "orders" = .ok "private" ∧
    c.subscribe channel kwargs sock response =
      ([], .error (.valueError ("Value " ++ channel ++ " is not a valid channel"))) := by
  refine ⟨rfl, rfl, ?_⟩
  simp [OkexWsApi.subscribe, OkexWsApi.get_channel_visibility, h1, h2]

/-- Witness for C7 at the concrete channel `"not-a-channel"`. -/
theorem channel_visibility_classification_witness :
    ("not-a-channel" ∉ PUBLIC_CHANNELS ∧ "not-a-channel" ∉ PRIVATE_CHANNELS) ∧
    OkexWsApi.subscribe ⟨"k", "p", Option.none, "ws.okex.com:8443/ws", "wss"⟩
        "not-a-channel" [] 0 (Json.obj [("event", Json.str "subscribe")]) =
      ([], .error (.valueError "Value not-a-channel is not a valid channel")) :=
  ⟨⟨by decide, by decide⟩,
    (channel_visibility_classification
      ⟨"k", "p", Option.none, "ws.okex.com:8443/ws", "wss"⟩ "not-a-channel" [] 0
      (Json.obj [("event", Json.str "subscribe")])
      (by decide) (by decide)).2.2⟩

/-- C3: when the handshake response of a routable channel carries event
`"error"` and message `m`, `subscribe` raises a `RuntimeError` whose text
contains `m` verbatim, and the caller never obtains a socket context; the
trace shows a single connect/send/recv attempt, so nothing is retried. -/
theorem subscribe_error_event_raises (c : OkexWsApi) (channel m vis : String)
    (kwargs : List (String × Json)) (sock : Nat) (response : Json)
    (hvis : OkexWsApi.get_channel_visibility channel = .ok vis)
    (hev : jsonGet response "event" = some (.str "error"))
    (hmsg : jsonGet response "msg" = some (.str m)) :
    (c.subscribe channel kwargs sock response).2 =
      .error (.runtimeError ("Subscription to channel " ++ channel
        ++ " failed with error \x22" ++ m ++ "\x22")) ∧
    (∃ pre post,
      "Subscription to channel " ++ channel ++ " failed with error \x22"
        ++ m ++ "\x22" = pre ++ (m ++ post)) ∧
    (∀ ctx : SocketContext, (c.subscribe channel kwargs sock response).2 ≠ .ok ctx) ∧
    (c.subscribe channel kwargs sock response).1 =
      [WsEvent.connected (c.protocol ++ "://" ++ c.base_url ++ "/v5/" ++ vis),
       WsEvent.sent (subscribeRequest channel kwargs), WsEvent.received] := by
  have hres : c.subscribe channel kwargs sock response =
      ([WsEvent.connected (c.protocol ++ "://" ++ c.base_url ++ "/v5/" ++ vis),
        WsEvent.sent (subscribeRequest channel kwargs), WsEvent.received],
       .error (.runtimeError ("Subscription to channel " ++ channel
         ++ " failed with error \x22" ++ m ++ "\x22"))) := by
    simp [OkexWsApi.subscribe, hvis, hev, hmsg, jsonIsStr, jsonPyStr]
  refine ⟨by rw [hres], ?_, ?_, by rw [hres]⟩
  · exact ⟨"Subscription to channel " ++ channel ++ " failed with error \x22",
      "\x22", by simp [String.append_assoc]⟩
  · intro ctx h
    rw [hres] at h
    exact Except.noConfusion h

/-- Witness for C3 at the concrete frame `{"event":"error","msg":"x"}` on
channel `"trades"`. -/
theorem subscribe_error_event_raises_witness :
    (OkexWsApi.subscribe ⟨"k", "p", Option.none, "ws.okex.com:8443/ws", "wss"⟩
        "trades" [] 0
        (Json.obj [("event", Json.str "error"), ("msg", Json.str "x")])).2 =
      .error (.runtimeError
        ("Subscription to channel " ++ "trades" ++ " failed with error \x22"
          ++ "x" ++ "\x22")) :=
  (subscribe_error_event_raises
    ⟨"k", "p", Option.none, "ws.okex.com:8443/ws", "wss"⟩ "trades" "x" "public" [] 0
    (Json.obj [("event", Json.str "error"), ("msg", Json.str "x")])
    rfl rfl rfl).1

/-- C4 counterexample: an inbound frame whose `data` array is empty does
not raise the deliberate protocol-violation `ValueError` the claim
requires — it raises an `IndexError` from `data[0]`. -/
theorem trades_empty_frame_not_protocol_error :
    raisesProtocolViolation (tradesProcessFrame []) = false ∧
    tradesProcessFrame [] = .error (.indexError "list index out of range") ∧
    tradesStep (Json.obj [("data", Json.arr [])]) =
      .error (.indexError "list index out of range") :=
  ⟨rfl, rfl, rfl⟩

/-- C4 (amended): a frame whose `data` array has more than one element
raises the protocol-violation `ValueError` (the first element is not
silently yielded), a singleton frame yields its element, and an empty
frame raises an `IndexError` (the uncaught failure of `data[0]`), not the
protocol-violation error. -/
theorem trades_frame_cardinality :
    (∀ data : List Json, 1 < data.length →
      tradesProcessFrame data =
        .error (.valueError "More data in websocket message than expected")) ∧
    (∀ d : Json, tradesProcessFrame [d] = .ok d) ∧
    tradesProcessFrame [] = .error (.indexError "list index out of range") := by
  refine ⟨fun data h => ?_, fun d => rfl, rfl⟩
  simp only [tradesProcessFrame, if_pos h]

/-- Witness for C4 at concrete frames of two, one and zero elements. -/
theorem trades_frame_cardinality_witness :
    tradesProcessFrame [Json.null, Json.null] =
      .error (.valueError "More data in websocket message than expected") ∧
    tradesProcessFrame [Json.str "t"] = .ok (Json.str "t") ∧
    tradesProcessFrame [] = .error (.indexError "list index out of range") :=
  ⟨trades_frame_cardinality.1 [Json.null, Json.null] (by decide),
   trades_frame_cardinality.2.1 (Json.str "t"),
   trades_frame_cardinality.2.2⟩

/-- C10: a handshake response whose `event` is neither `"subscribe"` nor
`"error"` is not validated: `subscribe` raises nothing and returns the
same trace and socket context as for an acknowledged subscription. -/
theorem unexpected_handshake_event_not_rejected (c : OkexWsApi)
    (channel vis : String) (kwargs : List (String × Json)) (sock : Nat)
    (response ev : Json)
    (hvis : OkexWsApi.get_channel_visibility channel = .ok vis)
    (hev : jsonGet response "event" = some ev)
    (h1 : jsonIsStr ev "subscribe" = false)
    (h2 : jsonIsStr ev "error" = false) :
    c.subscribe channel kwargs sock response =
      c.subscribe channel kwargs sock (Json.obj [("event", Json.str "subscribe")]) ∧
    (c.subscribe channel kwargs sock response).2 = .ok ⟨sock, channel⟩ := by
  refine ⟨?_, ?_⟩
  · simp only [OkexWsApi.subscribe, hvis, hev, h1, h2, Bool.false_eq_true, if_false]
    rfl
  · simp [OkexWsApi.subscribe, hvis, hev, h1, h2]

/-- Witness for C10 at the concrete frame `{"event":"pong"}` on channel
`"trades"`. -/
theorem unexpected_handshake_event_not_rejected_witness :
    (OkexWsApi.subscribe ⟨"k", "p", Option.none, "ws.okex.com:8443/ws", "wss"⟩
        "trades" [] 7 (Json.obj [("event", Json.str "pong")])).2 = .ok ⟨7, "trades"⟩ :=
  (unexpected_handshake_event_not_rejected
    ⟨"k", "p", Option.none, "ws.okex.com:8443/ws", "wss"⟩ "trades" "public" [] 7
    (Json.obj [("event", Json.str "pong")]) (Json.str "pong")
    rfl rfl (by decide) (by decide)).2

/-- C9: the `CandleStick` wire-data factory on
`["1620000000000","1","2","0.5","1.5","10","15"]` yields open 1, high 2,
low 0.5, close 1.5, volume 10, volume-in-currency 15; the derived change
is 0.5 and spread 1.5; and the mixin timestamp is the instant
1620000000000 ms = 1620000000 s after the epoch. -/
theorem candlestick_roundtrip :
    CandleStick.from_api_data ["1620000000000", "1", "2", "0.5", "1.5", "10", "15"] =
      some ⟨"1620000000000", 1, 2, 1 / 2, 3 / 2, 10, 15⟩ ∧
    CandleStick.change ⟨"1620000000000", 1, 2, 1 / 2, 3 / 2, 10, 15⟩ = 1 / 2 ∧
    CandleStick.spread ⟨"1620000000000", 1, 2, 1 / 2, 3 / 2, 10, 15⟩ = 3 / 2 ∧
    timestampSeconds "1620000000000" = some 1620000000 := by
  refine ⟨?_, ?_, ?_, ?_⟩
  · simp [CandleStick.from_api_data, pyFloat, splitDots, digitsVal]
    norm_num
  · simp [CandleStick.change, round2, roundHalfEven]
    norm_num
  · simp [CandleStick.spread, round2, roundHalfEven]
    norm_num
  · simp [timestampSeconds, pyFloat, splitDots, digitsVal]
    norm_num

/-- C6: header computation with no configured secret key produces the
empty header dict — none of the four auth headers, and no error — while
with a secret key (and ASCII-encodable signing inputs) exactly the four
auth headers are attached; an unauthenticated `make_request` therefore
proceeds to a request with empty headers. -/
theorem headers_skipped_without_secret (c : OkexApi) (sk ts method path body : String) :
    (c.secretkey = Option.none →
      OkexApi.get_headers c ts method path body = some [] ∧
      OkexApi.make_request c ts method path Option.none body =
        some { url := c.compile_url path, headers := [] }) ∧
    (c.secretkey = some sk → isAscii sk = true →
      isAscii (ts ++ pyUpper method ++ path ++ body) = true →
      OkexApi.get_headers c ts method path body =
        some [("OK-ACCESS-KEY", c.api_key),
              ("OK-ACCESS-SIGN",
                base64Encode (hmacSha256 (strBytes sk)
                  (strBytes (ts ++ pyUpper method ++ path ++ body)))),
              ("OK-ACCESS-TIMESTAMP", ts),
              ("OK-ACCESS-PASSPHRASE", c.passphrase)]) := by
  constructor
  · intro h
    constructor
    · simp [OkexApi.get_headers, h]
    · simp [OkexApi.make_request, OkexApi.get_headers, h]
  · intro h h1 h2
    simp [OkexApi.get_headers, h, OkexApi.get_signature, asciiEncode, h1, h2]

/-- Witness for C6: a client without a secret key gets empty headers; one
with secret key `"s"` gets exactly the four auth headers. -/
theorem headers_skipped_without_secret_witness :
    OkexApi.get_headers ⟨"k", "p", Option.none, "www.okex.com", "https"⟩
      "ts" "GET" "/api" "" = some [] ∧
    OkexApi.get_headers ⟨"k", "p", some "s", "www.okex.com", "https"⟩
      "ts" "GET" "/api" "" =
      some [("OK-ACCESS-KEY", "k"),
            ("OK-ACCESS-SIGN",
              base64Encode (hmacSha256 (strBytes "s")
                (strBytes ("ts" ++ pyUpper "GET" ++ "/api" ++ "")))),
            ("OK-ACCESS-TIMESTAMP", "ts"),
            ("OK-ACCESS-PASSPHRASE", "p")] :=
  ⟨((headers_skipped_without_secret
      ⟨"k", "p", Option.none, "www.okex.com", "https"⟩ "s" "ts" "GET" "/api" "").1
      rfl).1,
   (headers_skipped_without_secret
      ⟨"k", "p", some "s", "www.okex.com", "https"⟩ "s" "ts" "GET" "/api" "").2
      rfl (by decide) (by decide)⟩

/-- C1: for ASCII-encodable inputs, `get_signature` is exactly the Base64
encoding of the HMAC-SHA256 digest, keyed by the secret, of the
concatenation `timestamp + method.upper() + path + body`; and it is a
pure function of those five inputs — equal inputs give equal signatures. -/
theorem get_signature_spec (secretkey ts method path body : String)
    (h1 : isAscii secretkey = true)
    (h2 : isAscii (ts ++ pyUpper method ++ path ++ body) = true) :
    OkexApi.get_signature secretkey ts method path body =
      some (base64Encode (hmacSha256 (strBytes secretkey)
        (strBytes (ts ++ pyUpper method ++ path ++ body)))) ∧
    ∀ s2 t2 m2 p2 b2 : String,
      secretkey = s2 → ts = t2 → method = m2 → path = p2 → body = b2 →
      OkexApi.get_signature secretkey ts method path body =
        OkexApi.get_signature s2 t2 m2 p2 b2 := by
  constructor
  · simp [OkexApi.get_signature, asciiEncode, h1, h2]
  · intro s2 t2 m2 p2 b2 e1 e2 e3 e4 e5
    subst e1; subst e2; subst e3; subst e4; subst e5
    rfl

/-- Witness for C1 at concrete ASCII inputs. -/
theorem get_signature_spec_witness :
    OkexApi.get_signature "secret" "2021-05-03T00:00:00.000Z" "get" "/api/v5/x" "" =
      some (base64Encode (hmacSha256 (strBytes "secret")
        (strBytes ("2021-05-03T00:00:00.000Z" ++ pyUpper "get" ++ "/api/v5/x" ++ "")))) ∧
    OkexApi.get_signature "secret" "2021-05-03T00:00:00.000Z" "get" "/api/v5/x" "" =
      OkexApi.get_signature "secret" "2021-05-03T00:00:00.000Z" "get" "/api/v5/x" "" :=
  ⟨(get_signature_spec "secret" "2021-05-03T00:00:00.000Z" "get" "/api/v5/x" ""
      (by decide) (by decide)).1,
   (get_signature_spec "secret" "2021-05-03T00:00:00.000Z" "get" "/api/v5/x" ""
      (by decide) (by decide)).2 _ _ _ _ _ rfl rfl rfl rfl rfl⟩

/-- The query-string loop after the first iteration appends `&k=v` for
every remaining pair. -/
lemma compileQueryStringAux_shift (l : List (String × String)) :
    ∀ (i : Nat) (acc : String),
      compileQueryStringAux (i + 1) acc l = acc ++ ampTail l := by
  induction l with
  | nil => intro i acc; simp [compileQueryStringAux, ampTail]
  | cons kv rest ih =>
    intro i acc
    obtain ⟨k, v⟩ := kv
    simp [compileQueryStringAux, ampTail, ih, encodePair, String.append_assoc]

/-- Joining with leading separators after a head equals `ampJoin`. -/
lemma ampJoin_cons (x : String) (l : List (String × String)) :
    ampJoin (x :: l.map encodePair) = x ++ ampTail l := by
  induction l generalizing x with
  | nil => simp [ampJoin, ampTail]
  | cons kv rest ih =>
    simp [ampJoin, ampTail, ih, String.append_assoc]

/-- The compiled query string is a literal `?` followed by the encoded
pairs in order, joined by single `&`s. -/
lemma compile_query_string_eq_join (qp : List (String × String)) :
    OkexApi.compile_query_string qp = "?" ++ ampJoin (qp.map encodePair) := by
  cases qp with
  | nil => rfl
  | cons kv rest =>
    obtain ⟨k, v⟩ := kv
    show compileQueryStringAux 0 "?" ((k, v) :: rest) = _
    rw [compileQueryStringAux, compileQueryStringAux_shift]
    simp [List.map_cons, ampJoin_cons, encodePair, String.append_assoc]

/-- An `&`-free pair encodes to an `&`-free fragment. -/
lemma encodePair_count (k v : String) (hk : '&' ∉ k.data) (hv : '&' ∉ v.data) :
    (encodePair (k, v)).data.count '&' = 0 := by
  have h1 : List.count '&' k.data = 0 := List.count_eq_zero.mpr hk
  have h2 : List.count '&' v.data = 0 := List.count_eq_zero.mpr hv
  simp [encodePair, String.data_append, List.count_append, h1, h2]

/-- With `&`-free pairs, the tail contributes exactly one `&` per pair. -/
lemma ampTail_count (l : List (String × String))
    (h : ∀ kv ∈ l, '&' ∉ kv.1.data ∧ '&' ∉ kv.2.data) :
    (ampTail l).data.count '&' = l.length := by
  induction l with
  | nil => rfl
  | cons kv rest ih =>
    obtain ⟨k, v⟩ := kv
    have hk := (h (k, v) (List.mem_cons_self _ _)).1
    have hv := (h (k, v) (List.mem_cons_self _ _)).2
    have hrest := ih (fun kv hkv => h kv (List.mem_cons_of_mem _ hkv))
    simp [ampTail, String.data_append, List.count_append, hrest,
          encodePair_count k v hk hv]

/-- C8: for pairs free of the separator character, the compiled query
string is exactly `?` followed by the `k=v` fragments in insertion order
joined by `&`; its first character is `?` and it contains `length - 1`
occurrences of `&` — one strictly between each two consecutive pairs,
none before the first or after the last. -/
theorem query_string_structure (qp : List (String × String))
    (h : ∀ kv ∈ qp, '&' ∉ kv.1.data ∧ '&' ∉ kv.2.data) :
    OkexApi.compile_query_string qp = "?" ++ ampJoin (qp.map encodePair) ∧
    (OkexApi.compile_query_string qp).data.head? = some '?' ∧
    (OkexApi.compile_query_string qp).data.count '&' = qp.length - 1 := by
  refine ⟨compile_query_string_eq_join qp, ?_, ?_⟩
  · rw [compile_query_string_eq_join qp]
    simp [String.data_append]
  · cases qp with
    | nil => rfl
    | cons kv rest =>
      obtain ⟨k, v⟩ := kv
      rw [compile_query_string_eq_join, List.map_cons, ampJoin_cons]
      have hk := (h (k, v) (List.mem_cons_self _ _)).1
      have hv := (h (k, v) (List.mem_cons_self _ _)).2
      have hrest : (ampTail rest).data.count '&' = rest.length :=
        ampTail_count rest (fun kv hkv => h kv (List.mem_cons_of_mem _ hkv))
      simp [String.data_append, List.count_append, hrest,
            encodePair_count k v hk hv]

/-- Witness for C8 at the concrete parameter set
`{"instId": "BTC-USDT", "limit": "5"}`. -/
theorem query_string_structure_witness :
    OkexApi.compile_query_string [("instId", "BTC-USDT"), ("limit", "5")] =
      "?" ++ ampJoin (List.map encodePair [("instId", "BTC-USDT"), ("limit", "5")]) ∧
    (OkexApi.compile_query_string
        [("instId", "BTC-USDT"), ("limit", "5")]).data.head? = some '?' ∧
    (OkexApi.compile_query_string
        [("instId", "BTC-USDT"), ("limit", "5")]).data.count '&' = 1 :=
  query_string_structure [("instId", "BTC-USDT"), ("limit", "5")] (by decide)

/-- `add_param` on a name with no matching attribute raises the
unknown-key `KeyError`. -/
lemma add_param_unknown (d : QPDict) (key : String) (value : PyVal)
    (h1 : key ∉ qpAttrNames) (h2 : value ≠ PyVal.none) :
    QueryParams.add_param d key value =
      .error (.keyError ("QueryParams does not support " ++ key)) := by
  cases value <;>
    first
    | exact absurd rfl h2
    | simp [QueryParams.add_param, h1]

/-- A keyword list containing a non-attribute name with a non-`None` value
can never fold to a successful dict, whatever prefix precedes it. -/
lemma qpInit_aux_ne_ok (key : String) (value : PyVal)
    (h1 : key ∉ qpAttrNames) (h2 : value ≠ PyVal.none) :
    ∀ (pre : List (String × PyVal)) (acc : QPDict)
      (rest : List (String × PyVal)) (result : QPDict),
      QueryParams.initLoop acc (pre ++ (key, value) :: rest) ≠ .ok result := by
  intro pre
  induction pre with
  | nil =>
    intro acc rest result
    simp [QueryParams.initLoop, add_param_unknown acc key value h1 h2]
  | cons kv pre ih =>
    intro acc rest result
    obtain ⟨k, v⟩ := kv
    simp only [List.cons_append, QueryParams.initLoop]
    cases hres : QueryParams.add_param acc k v with
    | error e => simp [hres]
    | ok d => simpa [hres] using ih d rest result

/-- C2 counterexample: `"get"` is outside the recognized parameter table,
yet `QueryParams(get="x")` raises nothing — `hasattr` finds the built-in
`dict.get`, `self.get("x")` returns `None`, and the construction succeeds
with the usable dict `{"get": None}`. -/
theorem qp_unknown_key_counterexample :
    "get" ∉ recognizedParamNames ∧
    QueryParams.init [("get", PyVal.str "x")] = .ok [(PyVal.str "get", PyVal.none)] :=
  ⟨by decide, rfl⟩

/-- C2 (amended): for every parameter name that is not an attribute of the
`QueryParams` object — outside the eight validator names and the built-in
`dict`/`object` attribute names alike — and every non-`None` value,
`add_param` raises the unknown-key `KeyError` and the whole construction
aborts: no argument list containing such a pair ever yields a parameter
set. (Names colliding with built-in attributes, such as `"get"`, escape
this check.) -/
theorem qp_unknown_key_aborts (key : String) (value : PyVal)
    (d : QPDict) (pre rest : List (String × PyVal))
    (h1 : key ∉ qpAttrNames) (h2 : value ≠ PyVal.none) :
    QueryParams.add_param d key value =
      .error (.keyError ("QueryParams does not support " ++ key)) ∧
    ∀ result : QPDict,
      QueryParams.init (pre ++ (key, value) :: rest) ≠ .ok result :=
  ⟨add_param_unknown d key value h1 h2,
   fun result => qpInit_aux_ne_ok key value h1 h2 pre [] rest result⟩

/-- Witness for C2 at the concrete call
`QueryParams(limit=5, foo="1")`. -/
theorem qp_unknown_key_aborts_witness :
    ("foo" ∉ qpAttrNames ∧ PyVal.str "1" ≠ PyVal.none) ∧
    QueryParams.add_param [] "foo" (PyVal.str "1") =
      .error (.keyError ("QueryParams does not support " ++ "foo")) ∧
    QueryParams.init [("limit", PyVal.int 5), ("foo", PyVal.str "1")] ≠
      .ok [(PyVal.str "limit", PyVal.str "5")] :=
  ⟨⟨by decide, by simp⟩,
   (qp_unknown_key_aborts "foo" (PyVal.str "1") [] [("limit", PyVal.int 5)] []
      (by decide) (by simp)).1,
   (qp_unknown_key_aborts "foo" (PyVal.str "1") [] [("limit", PyVal.int 5)] []
      (by decide) (by simp)).2 _⟩

end Okex
